/-
Verification of the anime data pipeline (scrape / clean / visualize).

The three Python stages are shallowly embedded:
* `scrape.py`  — listing-entry extraction, detail-page field extraction with
  its regex searches, the per-entry skip loop, and `save_data`;
* `clean.py`   — a cell-level model of the pandas column transforms and the
  derived `Total_Watchers` / `Completion_Rate` columns, with the final
  `sort_values('Score', ascending=False)` modelled relationally (pandas'
  default quicksort guarantees the ordering but not tie order);
* `analyze_visualize.py` — the chart-file production of the reporter.

Numbers are `Nat`/`Int`/`Rat`; pandas float64 non-finite values (NaN and the
two infinities produced by division by zero) are explicit `Cell` variants.
Python exceptions are `Except`; `None` is `Option`.
-/
import Mathlib

namespace Anime

/- The core rational-arithmetic operations are `irreducible` by default;
re-enable their definitional unfolding so that concrete pipeline runs can be
checked by `decide`/`rfl`. -/
unseal Rat.add Rat.mul Rat.inv Rat.sub

/-! ## Python-string primitives used by the scraper

`str.strip`, `int(...)`, `float(...)` (no exponent forms are needed by the
pages being parsed), and the two regex searches of `scrape.py`
(`fr"{status}:\s*([\d,]+)"` and `r'by ([\d,]+) users'`). -/

/-- Python's `\s` whitespace class (ASCII subset). -/
def pyWs (c : Char) : Bool :=
  c == ' ' || c == '\t' || c == '\n' || c == '\r' || c == '\x0b' || c == '\x0c'

/-- `str.strip()` on a character list. -/
def pyStripChars (cs : List Char) : List Char :=
  ((cs.dropWhile pyWs).reverse.dropWhile pyWs).reverse

/-- `str.strip()`. -/
def pyStrip (s : String) : String :=
  String.mk (pyStripChars s.toList)

/-- Value of a non-empty digit string. -/
def digitsToNat (ds : List Char) : ℕ :=
  ds.foldl (fun a c => a * 10 + (c.toNat - 48)) 0

/-- `int(s)` on an already stripped string: optional sign then digits,
`none` models the `ValueError` raised on anything else. -/
def pyIntOfChars : List Char → Option ℤ
  | '-' :: rest =>
      if rest ≠ [] ∧ rest.all Char.isDigit then some (-(digitsToNat rest : ℤ)) else none
  | '+' :: rest =>
      if rest ≠ [] ∧ rest.all Char.isDigit then some ((digitsToNat rest : ℤ)) else none
  | cs =>
      if cs ≠ [] ∧ cs.all Char.isDigit then some ((digitsToNat cs : ℤ)) else none

/-- Unsigned decimal literal: `"12"`, `"12.5"`, `".5"`, `"12."`. -/
def pyFloatMag (cs : List Char) : Option ℚ :=
  let ip := cs.takeWhile Char.isDigit
  match cs.drop ip.length with
  | [] => if ip.isEmpty then none else some ((digitsToNat ip : ℚ))
  | '.' :: fr =>
      if fr.all Char.isDigit ∧ (ip ≠ [] ∨ fr ≠ []) then
        some ((digitsToNat ip : ℚ) + (digitsToNat fr : ℚ) / (10 : ℚ) ^ fr.length)
      else none
  | _ => none

/-- `float(s)` / the numeric parse of `pd.to_numeric` for the decimal forms
occurring in this data set; `none` models a parse failure. -/
def pyFloatOfChars : List Char → Option ℚ
  | '-' :: rest => (pyFloatMag rest).map Neg.neg
  | '+' :: rest => pyFloatMag rest
  | cs => pyFloatMag cs

/-- `float(s.strip())` as used on score text. -/
def pyFloat? (s : String) : Option ℚ :=
  pyFloatOfChars (pyStripChars s.toList)

/-- Drops `pre` from the front of `cs`, `none` when `cs` does not start
with `pre`. -/
def dropPref : List Char → List Char → Option (List Char)
  | [], cs => some cs
  | _ :: _, [] => none
  | p :: ps, c :: cs => if p = c then dropPref ps cs else none

/-- A `[\d,]` character. -/
def commaDigit (c : Char) : Bool := c.isDigit || c == ','

/-- `int(group.replace(",", ""))` where `group` matched `[\d,]+`:
`none` models the `ValueError` when nothing but commas matched. -/
def natOfCommaDigits (grp : List Char) : Option ℕ :=
  let ds := grp.filter Char.isDigit
  if ds.isEmpty then none else some (digitsToNat ds)

/-- One anchored attempt of `fr"{status}:\s*([\d,]+)"`: the literal label,
a colon, optional whitespace, then a non-empty greedy `[\d,]+` group. -/
def tryStatusAt (label : List Char) (cs : List Char) : Option (List Char) :=
  match dropPref (label ++ [':']) cs with
  | none => none
  | some rest =>
      let grp := (rest.dropWhile pyWs).takeWhile commaDigit
      if grp.isEmpty then none else some grp

/-- `re.search(fr"{status}:\s*([\d,]+)", text)`: leftmost match wins. -/
def reSearchStatus (label : List Char) : List Char → Option (List Char)
  | [] => tryStatusAt label []
  | c :: cs =>
      match tryStatusAt label (c :: cs) with
      | some grp => some grp
      | none => reSearchStatus label cs

/-- One anchored attempt of `r'by ([\d,]+) users'`. The group is the maximal
`[\d,]+` run: any backtracked shorter run is followed by a digit or comma,
which can never match the literal space of `" users"`. -/
def tryByUsersAt (cs : List Char) : Option (List Char) :=
  match dropPref ['b', 'y', ' '] cs with
  | none => none
  | some rest =>
      let grp := rest.takeWhile commaDigit
      if grp.isEmpty then none
      else
        match dropPref [' ', 'u', 's', 'e', 'r', 's'] (rest.drop grp.length) with
        | some _ => some grp
        | none => none

/-- `re.search(r'by ([\d,]+) users', text)`: leftmost match wins. -/
def reSearchByUsers : List Char → Option (List Char)
  | [] => tryByUsersAt []
  | c :: cs =>
      match tryByUsersAt (c :: cs) with
      | some grp => some grp
      | none => reSearchByUsers cs

/-- `s.startswith(pre)` — character-list prefix test. -/
def pyStartswith (pre s : String) : Bool :=
  pre.toList.isPrefixOf s.toList

/-- `"Season" in t` — substring containment. -/
def containsSub (needle : List Char) : List Char → Bool
  | [] => needle.isEmpty
  | c :: cs => needle.isPrefixOf (c :: cs) || containsSub needle cs

/-! ## scrape.py — data model -/

/-- Exceptions of the scraping stage: `AnimeScraperError` raised by
`fetch_page`/`save_data`, plus the Python runtime errors the extraction code
can raise (and catch). -/
inductive ScrapeErr where
  | scraperError (msg : String)
  | attributeError
  | valueError
  | keyError
deriving DecidableEq

/-- The `next_sibling` of a found `<span>` label: absent / falsy text or a
Tag, on which the code's `.strip()` raises `AttributeError`. -/
inductive Sibling where
  | noSib
  | text (s : String)
  | tagSib
deriving DecidableEq

/-- A detail page as the four queries of `parse_anime_details` see it:
`soup.find('span', string=label)` with its `next_sibling`, the
`span[itemprop='genre']` texts, `soup.get_text()`, and the document's text
fragments in order (for `soup.find(string=lambda t: t and "Season" in t)`). -/
structure DetailPage where
  labelFind : String → Option Sibling
  genres : List String
  pageText : String
  textFragments : List String

/-- The fields assembled by `parse_anime_details` (plain strings, the five
viewer-status counts, and the inferred season number). -/
structure DetailInfo where
  «Type» : String
  Episodes : String
  Duration : String
  Source : String
  Aired : String
  Season : String
  Genres : String
  Watching : ℕ
  Completed : ℕ
  On_Hold : ℕ
  Dropped : ℕ
  Plan_to_Watch : ℕ
  Season_Number : ℕ
deriving DecidableEq

/-- The all-default detail record returned when any exception is caught
(lines 143–157 of `scrape.py`). -/
def default_details : DetailInfo :=
  { «Type» := "Unknown", Episodes := "Unknown", Duration := "Unknown",
    Source := "Unknown", Aired := "Unknown", Season := "Unknown",
    Genres := "Unknown", Watching := 0, Completed := 0, On_Hold := 0,
    Dropped := 0, Plan_to_Watch := 0, Season_Number := 1 }

/-- One labelled field: `soup.find('span', string=label)` then
`element.next_sibling.strip()` guarded by `if element and element.next_sibling`.
A Tag sibling has no `.strip` and raises `AttributeError`. -/
def labelField (page : DetailPage) (label : String) : Except ScrapeErr String :=
  match page.labelFind label with
  | none => .ok "Unknown"
  | some .noSib => .ok "Unknown"
  | some (.text s) => if s.isEmpty then .ok "Unknown" else .ok (pyStrip s)
  | some .tagSib => .error .attributeError

/-- One viewer-status count: regex search over the page text; no match
leaves the initialised `0`, a match is `int(group.replace(",", ""))`. -/
def statusCount (pageText : String) (label : String) : Except ScrapeErr ℕ :=
  match reSearchStatus label.toList pageText.toList with
  | none => .ok 0
  | some grp =>
      match natOfCommaDigits grp with
      | some n => .ok n
      | none => .error .valueError

/-- First text fragment containing the word `"Season"`. -/
def seasonFragment (frags : List String) : Option String :=
  frags.find? (fun t => containsSub "Season".toList t.toList)

/-- All digit characters of the fragment, in order
(`"".flatten(filter(str.isdigit, season_match))`). -/
def seasonDigits (frag : String) : List Char :=
  frag.toList.filter Char.isDigit

/-- Season-number inference (lines 128–136): only when `Type` starts with
`"TV"`, take the first `"Season"` fragment and parse the concatenation of
all its digits; otherwise (or when there are no digits) keep `1`. -/
def season_number (typ : String) (frags : List String) : ℕ :=
  if pyStartswith "TV" typ then
    match seasonFragment frags with
    | some frag =>
        let ds := seasonDigits frag
        if ds.isEmpty then 1 else digitsToNat ds
    | none => 1
  else 1

/-- The body of `parse_anime_details`'s `try` block on a fetched page:
labelled fields, genres, the five status counts, the season number.
Failures (`AttributeError` on a Tag sibling, `ValueError` on an all-comma
status group) propagate to the handler. -/
def extract_details (page : DetailPage) : Except ScrapeErr DetailInfo := do
  let typ ← labelField page "Type:"
  let eps ← labelField page "Episodes:"
  let dur ← labelField page "Duration:"
  let src ← labelField page "Source:"
  let aired ← labelField page "Aired:"
  let season ← labelField page "Season:"
  let genres := if page.genres.isEmpty then "Unknown" else String.intercalate ", " page.genres
  let watching ← statusCount page.pageText "Watching"
  let completed ← statusCount page.pageText "Completed"
  let onHold ← statusCount page.pageText "On-Hold"
  let dropped ← statusCount page.pageText "Dropped"
  let ptw ← statusCount page.pageText "Plan to Watch"
  let sn := season_number typ page.textFragments
  return { «Type» := typ, Episodes := eps, Duration := dur, Source := src,
           Aired := aired, Season := season, Genres := genres,
           Watching := watching, Completed := completed, On_Hold := onHold,
           Dropped := dropped, Plan_to_Watch := ptw, Season_Number := sn }

/-- `parse_anime_details(session, url)`: fetch the page and extract; any
exception raised while fetching or extracting is caught and replaced by the
all-default record. The network is the function `fetch`. -/
def parse_anime_details (fetch : String → Except ScrapeErr DetailPage)
    (url : String) : DetailInfo :=
  match (fetch url).bind extract_details with
  | .ok info => info
  | .error _ => default_details

/-! ## scrape.py — listing pages -/

/-- The `<td class="score">` cell of a ranking row: the inner `<span>` text
(absent span models the `AttributeError` of `.find("span").text`) and the
cell's `get_text(strip=True)`. -/
structure ScoreCell where
  spanText : Option String
  fullText : String

/-- One `<tr class="ranking-list">` row as the extraction queries see it:
rank-cell text, the `h3 > a` tag (title text and `href`), and the optional
score cell. A `none` models the query chain raising on an absent node. -/
structure Entry where
  rankText : Option String
  titleLink : Option (String × String)
  scoreCell : Option ScoreCell

/-- The summary fields read from one listing row. -/
structure EntryFields where
  rank : ℤ
  title : String
  link : String
  score : ℚ
  rating_users : ℕ
deriving DecidableEq

/-- `Option.get` with an exception, modelling an access that raises. -/
def orRaise (e : ScrapeErr) : Option α → Except ScrapeErr α
  | some a => .ok a
  | none => .error e

/-- Lines 170–184 of `scrape.py`: rank, title, link, score, rating users.
Note the code's order: `score` is guarded by `if score_td else 0.0`, but the
very next line calls `score_td.get_text(strip=True)` unconditionally, which
raises `AttributeError` whenever the score cell is absent. -/
def extract_entry (e : Entry) : Except ScrapeErr EntryFields := do
  let rt ← orRaise .attributeError e.rankText
  let rank ← orRaise .valueError (pyIntOfChars (pyStripChars rt.toList))
  let (title, link) ← orRaise .attributeError e.titleLink
  let score ← match e.scoreCell with
    | some sc => do
        let st ← orRaise .attributeError sc.spanText
        orRaise .valueError (pyFloat? st)
    | none => pure (0 : ℚ)
  let ratingText ← match e.scoreCell with
    | some sc => pure sc.fullText
    | none => Except.error ScrapeErr.attributeError
  let rating_users ← match reSearchByUsers ratingText.toList with
    | some grp => orRaise .valueError (natOfCommaDigits grp)
    | none => pure 0
  return { rank := rank, title := title, link := link, score := score,
           rating_users := rating_users }

/-- One collected record: the four summary fields merged with the detail
fields (`{"Rank": ..., "Title": ..., "Score": ..., "Rating_Users": ...,
**details}`). -/
structure RawRecord where
  Rank : ℤ
  Title : String
  Score : ℚ
  Rating_Users : ℕ
  details : DetailInfo
deriving DecidableEq

/-- The body of the per-entry `try`: extract the summary fields, fetch and
merge the detail fields (which never raises), build the record. -/
def processEntry (fetch : String → Except ScrapeErr DetailPage) (e : Entry) :
    Except ScrapeErr RawRecord := do
  let f ← extract_entry e
  return { Rank := f.rank, Title := f.title, Score := f.score,
           Rating_Users := f.rating_users,
           details := parse_anime_details fetch f.link }

/-- `parse_top_anime`: loop over the ranking rows; an entry whose processing
raises is logged and skipped (`except ... continue`), the rest are appended
in order. -/
def parse_top_anime (fetch : String → Except ScrapeErr DetailPage)
    (entries : List Entry) : List RawRecord :=
  entries.filterMap (fun e => (processEntry fetch e).toOption)

/-- The collection loop of `main`: `all_anime.extend(parse_top_anime(...))`
for each listing page in order. -/
def crawl_records (fetch : String → Except ScrapeErr DetailPage)
    (pages : List (List Entry)) : List RawRecord :=
  pages.foldl (fun acc p => acc ++ parse_top_anime fetch p) []

/-! ## scrape.py — save_data -/

/-- The bit of filesystem state `save_data` touches: created directories and
written CSV files (a file's content is the record list handed to pandas). -/
structure FS where
  dirs : List String
  files : List (String × List RawRecord)
deriving DecidableEq

/-- `save_data(anime_list, filepath)`: raise `AnimeScraperError` on an empty
list (before any filesystem effect), else create the parent directory and
write the CSV. -/
def save_data (anime_list : List RawRecord) (filepath parent : String)
    (fs : FS) : Except ScrapeErr Unit × FS :=
  if anime_list.isEmpty then
    (.error (.scraperError "No data to save"), fs)
  else
    (.ok (),
     { dirs := if parent ∈ fs.dirs then fs.dirs else fs.dirs ++ [parent],
       files := (filepath, anime_list) :: fs.files.filter (fun p => p.1 ≠ filepath) })

/-! ## clean.py — cell and DataFrame model

A CSV cell as pandas holds it: a string, a finite float64 value (modelled by
`ℚ`), `NaN`, or an infinity (the latter two arise from the arithmetic of the
derived columns). A row is a total function from column names to cells;
`KeyError` on a missing column is governed by the header list. -/

inductive Cell where
  | str (s : String)
  | num (q : ℚ)
  | nan
  | pinf
  | ninf
deriving DecidableEq

/-- Is a cell a Python string (the `object`-dtype test)? -/
def isStrCell : Cell → Bool
  | .str _ => true
  | _ => false

def isPinfCell : Cell → Bool
  | .pinf => true
  | _ => false

def isNinfCell : Cell → Bool
  | .ninf => true
  | _ => false

/-- A cell the raw CSV can actually contain (no infinities). -/
def isCsvCell : Cell → Prop
  | .pinf => False
  | .ninf => False
  | _ => True

instance (c : Cell) : Decidable (isCsvCell c) := by
  unfold isCsvCell; cases c <;> infer_instance

def Row : Type := String → Cell

instance : Inhabited Row := ⟨fun _ => Cell.nan⟩

/-- A DataFrame: its column names and its rows. -/
structure DF where
  header : List String
  rows : List Row

/-- The lookup errors of the cleaning stage. -/
inductive CleanErr where
  | keyError (col : String)
deriving DecidableEq

/-- `pd.to_numeric(x, errors='coerce')` on one cell. -/
def toNumericCell : Cell → Cell
  | .num q => .num q
  | .str s => match pyFloatOfChars (pyStripChars s.toList) with
      | some q => .num q
      | none => .nan
  | .nan => .nan
  | .pinf => .pinf
  | .ninf => .ninf

/-- `.fillna(0)` on one cell. -/
def fillna0 : Cell → Cell
  | .nan => .num 0
  | c => c

/-- The `.str.replace(',', '')` accessor: acts on strings, any non-string
element becomes `NaN`. -/
def strReplaceComma : Cell → Cell
  | .str s => .str (String.mk (s.toList.filter (fun c => c ≠ ',')))
  | _ => .nan

/-- `.replace('Unknown', np.nan)` on one cell. -/
def replaceUnknown : Cell → Cell
  | .str s => if s = "Unknown" then .nan else .str s
  | c => c

/-- `.fillna('Other')` on the `Type` column. -/
def fillnaOther : Cell → Cell
  | .nan => .str "Other"
  | c => c

/-- The status-column transform `pd.to_numeric(..., errors='coerce').fillna(0)`. -/
def statusClean (c : Cell) : Cell := fillna0 (toNumericCell c)

/-- The numeric value a CSV cell contributes to a status column after
`statusClean` (strings parse or become `0` via `NaN`-fill). -/
def statusQ : Cell → ℚ
  | .num q => q
  | .str s => (pyFloatOfChars (pyStripChars s.toList)).getD 0
  | _ => 0

/-- A pandas sum (`skipna=True`): `NaN` entries are skipped, finite values
add, an infinity absorbs, opposite infinities give `NaN`. String cells
cannot occur in the summed numeric columns and are skipped like `NaN`. -/
def pandasSum (cs : List Cell) : Cell :=
  let fins := cs.filterMap (fun c => match c with | .num q => some q | _ => none)
  if cs.any isPinfCell then
    if cs.any isNinfCell then .nan else .pinf
  else if cs.any isNinfCell then .ninf
  else .num fins.sum

/-- float64 division of two cells as pandas performs it (`x / 0` is `NaN`
for `x = 0` and a signed infinity otherwise). Strings cannot reach this
operation in the pipeline and are treated as `NaN`. -/
def cellDiv : Cell → Cell → Cell
  | .num a, .num b =>
      if b = 0 then (if a = 0 then .nan else if 0 < a then .pinf else .ninf)
      else .num (a / b)
  | .nan, _ => .nan
  | _, .nan => .nan
  | .str _, _ => .nan
  | _, .str _ => .nan
  | .pinf, .num b => if b < 0 then .ninf else .pinf
  | .ninf, .num b => if b < 0 then .pinf else .ninf
  | .num _, .pinf => .num 0
  | .num _, .ninf => .num 0
  | .pinf, .pinf => .nan
  | .pinf, .ninf => .nan
  | .ninf, .pinf => .nan
  | .ninf, .ninf => .nan

/-- `* 100` on a cell. -/
def cellMul100 : Cell → Cell
  | .num q => .num (q * 100)
  | c => c

/-- numpy's round-half-to-even on a rational. -/
def roundHalfEven (q : ℚ) : ℤ :=
  let f := ⌊q⌋
  if q - f < 1 / 2 then f
  else if 1 / 2 < q - f then f + 1
  else if f % 2 = 0 then f else f + 1

/-- `.round(2)`: round-half-to-even at two decimals. -/
def round2 (q : ℚ) : ℚ := (roundHalfEven (q * 100) : ℚ) / 100

/-- `.round(2)` on a cell (`NaN` and infinities pass through). -/
def cellRound2 : Cell → Cell
  | .num q => .num (round2 q)
  | c => c

/-- The whole derived-column expression
`(completed / total * 100).round(2).fillna(0)` on one row's cells. -/
def completionCell (completed total : Cell) : Cell :=
  fillna0 (cellRound2 (cellMul100 (cellDiv completed total)))

/-- Reading `df[c]` raises `KeyError` when `c` is not a column; otherwise
the column is transformed cell-wise and written back. -/
def DF.transformCol (df : DF) (c : String) (f : Cell → Cell) :
    Except CleanErr DF :=
  if c ∈ df.header then
    .ok ⟨df.header, df.rows.map (fun r => Function.update r c (f (r c)))⟩
  else .error (.keyError c)

/-- Column assignment appends a new column name, keeps an existing one. -/
def insertCol (h : List String) (c : String) : List String :=
  if c ∈ h then h else h ++ [c]

/-- The five viewer-status columns (`status_cols` in `clean.py` and
`analyze_visualize.py`). -/
def status_cols : List String :=
  ["Watching", "Completed", "On_Hold", "Dropped", "Plan_to_Watch"]

/-- Lines 30–35 of `clean.py`: the `Rating_Users` column is comma-stripped
through the `.str` accessor only when its dtype is `object` (it contains a
string), then coerced to numeric. -/
def cleanRatingUsers (df : DF) : Except CleanErr DF :=
  if "Rating_Users" ∈ df.header then
    let isObj := (df.rows.map (fun r => r "Rating_Users")).any isStrCell
    let f : Cell → Cell :=
      if isObj then fun c => toNumericCell (strReplaceComma c) else toNumericCell
    .ok ⟨df.header, df.rows.map (fun r => Function.update r "Rating_Users" (f (r "Rating_Users")))⟩
  else .error (.keyError "Rating_Users")

/-- Lines 52–56 of `clean.py`: `Total_Watchers` is the row-wise sum of the
five status columns and `Completion_Rate` the rounded, `NaN`-filled
percentage, both assigned as new columns. -/
def addDerived (df : DF) : Except CleanErr DF :=
  if status_cols.all (fun c => c ∈ df.header) then
    let df1 : DF :=
      ⟨insertCol df.header "Total_Watchers",
       df.rows.map (fun r =>
         Function.update r "Total_Watchers" (pandasSum (status_cols.map (fun c => r c))))⟩
    if "Completed" ∈ df1.header ∧ "Total_Watchers" ∈ df1.header then
      .ok ⟨insertCol df1.header "Completion_Rate",
           df1.rows.map (fun r =>
             Function.update r "Completion_Rate"
               (completionCell (r "Completed") (r "Total_Watchers")))⟩
    else .error (.keyError "Completed")
  else .error (.keyError "Watching")

/-- `clean_anime_data` up to (but not including) the final
`sort_values('Score', ascending=False)`: lines 27–56 of `clean.py`. -/
def clean_anime_data_core (df : DF) : Except CleanErr DF := do
  let df1 ← df.transformCol "Score" toNumericCell
  let df2 ← cleanRatingUsers df1
  let df3 ← df2.transformCol "Episodes" (fun c => toNumericCell (replaceUnknown c))
  let df4 ← df3.transformCol "Type" fillnaOther
  let df5 ← df4.transformCol "Watching" statusClean
  let df6 ← df5.transformCol "Completed" statusClean
  let df7 ← df6.transformCol "On_Hold" statusClean
  let df8 ← df7.transformCol "Dropped" statusClean
  let df9 ← df8.transformCol "Plan_to_Watch" statusClean
  addDerived df9

/-- The rows of the pre-sort cleaned frame (empty on a lookup error). -/
def cleanCoreRows (df : DF) : List Row :=
  match clean_anime_data_core df with
  | .ok mid => mid.rows
  | .error _ => []

/-- Descending sort key of a `Score` cell, lexicographic: infinities first,
then finite scores by decreasing value, then (unreachable here) strings,
with `NaN` placed last — pandas `ascending=False, na_position='last'`. -/
def scoreKey : Cell → ℕ ×ₗ ℚ
  | .pinf => (0, 0)
  | .num q => (1, -q)
  | .ninf => (2, 0)
  | .str _ => (3, 0)
  | .nan => (4, 0)

/-- Row comparison used by the sort: by the `Score` cell's descending key. -/
def rowLe (a b : Row) : Prop := scoreKey (a "Score") ≤ scoreKey (b "Score")

instance : DecidableRel rowLe := fun a b =>
  inferInstanceAs (Decidable (scoreKey (a "Score") ≤ scoreKey (b "Score")))

instance : IsTotal Row rowLe := ⟨fun _ _ => le_total _ _⟩

instance : IsTrans Row rowLe := ⟨fun _ _ _ hab hbc => le_trans hab hbc⟩

/-- The semantics of `df.sort_values('Score', ascending=False)` with the
default `kind='quicksort'`: a permutation of the rows that is ordered by the
descending score key. The default quicksort is documented as unstable, so
the order of rows with equal scores is not otherwise specified. -/
def sort_values_Score_desc (inp out : List Row) : Prop :=
  inp.Perm out ∧ out.Pairwise rowLe

/-- `clean_anime_data(df)`: the deterministic column transforms followed by
the (relationally specified) sort; `reset_index(drop=True)` has no
observable effect in this model. -/
def clean_anime_data (df df' : DF) : Prop :=
  ∃ mid, clean_anime_data_core df = .ok mid ∧
    df'.header = mid.header ∧ sort_values_Score_desc mid.rows df'.rows

/-- The column set `clean_anime_data` actually reads (raising `KeyError`
when absent). `Genres` is not among them: `clean.py` never touches it. -/
def required_cols : List String :=
  ["Score", "Rating_Users", "Episodes", "Type",
   "Watching", "Completed", "On_Hold", "Dropped", "Plan_to_Watch"]

/-! ## analyze_visualize.py — chart-file production

Chart rendering itself is delegated to the plotting library; the modelled
observable effect of each `plot_*` function is the list of image files it
writes. -/

/-- `df[c]` as a list of cells. -/
def colCells (df : DF) (c : String) : List Cell := df.rows.map (fun r => r c)

/-- The `== 0` comparison of `status_sums.sum() == 0` (false on `NaN` and
infinities, as for float64). -/
def cellEqZero : Cell → Bool
  | .num q => q == 0
  | _ => false

def plot_top_anime_files (_df : DF) : List String := ["top_10_anime.png"]

def plot_score_episodes_files (_df : DF) : List String := ["score_vs_episodes.png"]

def plot_genres_distribution_files (_df : DF) : List String := ["genre_distribution.png"]

/-- `plot_watching_status`: sum each status column, and skip the chart
entirely (no file) when the grand total is zero. -/
def plot_watching_status_files (df : DF) : List String :=
  let status_sums := status_cols.map (fun c => pandasSum (colCells df c))
  if cellEqZero (pandasSum status_sums) then [] else ["watching_status.png"]

/-- The reporter's `main`: the four chart operations in order. -/
def visualize_main_files (df : DF) : List String :=
  plot_top_anime_files df ++ plot_score_episodes_files df ++
    plot_genres_distribution_files df ++ plot_watching_status_files df

/-! ## Spec-side formalisations and derived helpers -/

/-- The first maximal digit run of a string (used only to state the spec's
"leading digit run" reading of the season heuristic). -/
def firstDigitRun (cs : List Char) : List Char :=
  (cs.dropWhile (fun c => !c.isDigit)).takeWhile Char.isDigit

/-- The season-number rule as the specification words it: the first
`"Season"` fragment's *leading digit run* is the season number. Stated only
to compare against the code's `season_number`, which concatenates *all*
digit characters of the fragment. -/
def season_number_claim (typ : String) (frags : List String) : ℕ :=
  if pyStartswith "TV" typ then
    match seasonFragment frags with
    | some frag =>
        let ds := firstDigitRun frag.toList
        if ds.isEmpty then 1 else digitsToNat ds
    | none => 1
  else 1

/-- The `object`-dtype test pandas applies to the raw `Rating_Users`
column: it holds a string. -/
def ruObjectFlag (df : DF) : Bool :=
  (df.rows.map (fun r => r "Rating_Users")).any isStrCell

/-- The `Rating_Users` transform, depending on the column dtype. -/
def ruCleanFun (b : Bool) : Cell → Cell :=
  if b then fun c => toNumericCell (strReplaceComma c) else toNumericCell

/-- The composite effect of all column transforms of
`clean_anime_data_core` on one row (the steps in source order). -/
def cleanRowFun (b : Bool) (r : Row) : Row :=
  let r1 := Function.update r "Score" (toNumericCell (r "Score"))
  let r2 := Function.update r1 "Rating_Users" (ruCleanFun b (r1 "Rating_Users"))
  let r3 := Function.update r2 "Episodes" (toNumericCell (replaceUnknown (r2 "Episodes")))
  let r4 := Function.update r3 "Type" (fillnaOther (r3 "Type"))
  let r5 := Function.update r4 "Watching" (statusClean (r4 "Watching"))
  let r6 := Function.update r5 "Completed" (statusClean (r5 "Completed"))
  let r7 := Function.update r6 "On_Hold" (statusClean (r6 "On_Hold"))
  let r8 := Function.update r7 "Dropped" (statusClean (r7 "Dropped"))
  let r9 := Function.update r8 "Plan_to_Watch" (statusClean (r8 "Plan_to_Watch"))
  let r10 := Function.update r9 "Total_Watchers"
    (pandasSum (status_cols.map (fun c => r9 c)))
  Function.update r10 "Completion_Rate"
    (completionCell (r10 "Completed") (r10 "Total_Watchers"))

/-- The record an entry yields when its extraction succeeds (junk values in
the unreachable error case; used to describe `parse_top_anime` on lists of
successfully parsed entries). -/
def recOf (fetch : String → Except ScrapeErr DetailPage) (e : Entry) : RawRecord :=
  match extract_entry e with
  | .ok f => { Rank := f.rank, Title := f.title, Score := f.score,
               Rating_Users := f.rating_users,
               details := parse_anime_details fetch f.link }
  | .error _ => { Rank := 0, Title := "", Score := 0, Rating_Users := 0,
                  details := default_details }

/-- A cell that is a non-negative finite number (the decidable shape
hypothesis used for status columns of an already cleaned frame). -/
def isNonnegNum : Cell → Prop
  | .num q => 0 ≤ q
  | _ => False

instance (c : Cell) : Decidable (isNonnegNum c) := by
  unfold isNonnegNum; cases c <;> infer_instance

/-! ## Concrete inputs used by witnesses and counterexamples -/

/-- A detail page with nothing on it: every extraction defaults. -/
def blankPage : DetailPage where
  labelFind := fun _ => none
  genres := []
  pageText := ""
  textFragments := []

/-- A network where every detail fetch succeeds with a blank page. -/
def fetchAllOk : String → Except ScrapeErr DetailPage := fun _ => .ok blankPage

/-- A network where exactly the detail URL `"u"` fails. -/
def fetchOneFail : String → Except ScrapeErr DetailPage :=
  fun url => if url = "u" then .error (.scraperError "Failed to fetch page: timeout") else .ok blankPage

def entryA : Entry where
  rankText := some "1"
  titleLink := some ("Alpha", "u")
  scoreCell := some { spanText := some "9.21", fullText := "9.21by 12,345 users" }

def entryB : Entry where
  rankText := some "2"
  titleLink := some ("Beta", "v")
  scoreCell := some { spanText := some "8.54", fullText := "8.54by 2 users" }

/-- A row whose rank cell is missing: `.text` on `None` raises. -/
def entryBad : Entry where
  rankText := none
  titleLink := some ("Gamma", "w")
  scoreCell := some { spanText := some "7.0", fullText := "7.0" }

/-- A row with rank, title and link present but no score `<td>`. -/
def entryNoScore : Entry where
  rankText := some "3"
  titleLink := some ("Delta", "x")
  scoreCell := none

/-- A row whose score cell lacks the `"by N users"` text. -/
def entryNoUsers : Entry where
  rankText := some "4"
  titleLink := some ("Eps", "y")
  scoreCell := some { spanText := some "7.5", fullText := "7.5" }

/-- A TV detail page whose `"Season"` fragment carries digits in two
places. -/
def pageSeasonCx : DetailPage where
  labelFind := fun l => if l = "Type:" then some (.text "TV") else none
  genres := []
  pageText := ""
  textFragments := ["2nd Season (2020)"]

def fetchSeasonCx : String → Except ScrapeErr DetailPage := fun _ => .ok pageSeasonCx

/-- A TV detail page with a plain `"Season 2"` fragment. -/
def pageSeasonW : DetailPage where
  labelFind := fun l => if l = "Type:" then some (.text "TV") else none
  genres := []
  pageText := ""
  textFragments := ["Season 2"]

def fetchSeasonW : String → Except ScrapeErr DetailPage := fun _ => .ok pageSeasonW

/-- Two one-entry listing pages whose rank cells read 1 and 2. -/
def wPages : List (List Entry) := [[entryA], [entryB]]

/-- A raw row with string-typed numerics, an `Unknown` episode count, a
missing `Type`, and status counts 10/30/5/5/0. -/
def row3w : Row := fun c =>
  if c = "Score" then .str "8.5"
  else if c = "Rating_Users" then .str "12,345"
  else if c = "Episodes" then .str "Unknown"
  else if c = "Type" then .nan
  else if c = "Watching" then .num 10
  else if c = "Completed" then .num 30
  else if c = "On_Hold" then .num 5
  else if c = "Dropped" then .num 5
  else if c = "Plan_to_Watch" then .num 0
  else .str "pad"

def df3w : DF := ⟨required_cols, [row3w]⟩

/-- Two rows with equal scores, distinguishable by their `Title` cell. -/
def rowTieA : Row := fun c => if c = "Title" then .str "A" else .num 5

def rowTieB : Row := fun c => if c = "Title" then .str "B" else .num 5

def dfC4 : DF := ⟨required_cols, [rowTieA, rowTieB]⟩

/-- A sort output for `dfC4` with the two equal-score rows swapped. -/
def outC4 : DF :=
  ⟨insertCol (insertCol dfC4.header "Total_Watchers") "Completion_Rate",
   (cleanCoreRows dfC4).reverse⟩

/-- A raw table with every column `clean.py` reads, but no `Genres`. -/
def dfNoGenres : DF := ⟨required_cols, []⟩

/-- A table missing the `Score` column. -/
def dfMissingScore : DF := ⟨["Rank", "Title"], []⟩

/-- Cleaned frames for the reporter: all status values zero / some
non-zero. -/
def rowAllZero : Row := fun _ => .num 0

def rowAllOne : Row := fun _ => .num 1

def dfStatusZero : DF := ⟨status_cols, [rowAllZero]⟩

def dfStatusOne : DF := ⟨status_cols, [rowAllOne]⟩

/-! ## Helper lemmas -/

theorem exceptOk_of_isOk {ε α : Type _} {x : Except ε α} (h : x.isOk = true) :
    ∃ a, x = .ok a := by
  cases x with
  | error e => simp [Except.isOk, Except.toBool] at h
  | ok a => exact ⟨a, rfl⟩

theorem exceptBind_ok {ε α β : Type _} {x : Except ε α} {f : α → Except ε β}
    {b : β} (h : x >>= f = .ok b) : ∃ a, x = .ok a ∧ f a = .ok b := by
  cases x with
  | error e => simp [Bind.bind, Except.bind] at h
  | ok a => exact ⟨a, rfl, by simpa [Bind.bind, Except.bind] using h⟩

theorem processEntry_ok (fetch : String → Except ScrapeErr DetailPage)
    (e : Entry) (f : EntryFields) (hf : extract_entry e = .ok f) :
    processEntry fetch e =
      .ok { Rank := f.rank, Title := f.title, Score := f.score,
            Rating_Users := f.rating_users,
            details := parse_anime_details fetch f.link } := by
  simp [processEntry, hf, Bind.bind, Except.bind, pure, Except.pure]

theorem parse_top_anime_all_ok (fetch : String → Except ScrapeErr DetailPage)
    (entries : List Entry)
    (hok : ∀ e ∈ entries, (extract_entry e).isOk = true) :
    parse_top_anime fetch entries = entries.map (recOf fetch) := by
  induction entries with
  | nil => rfl
  | cons e es ih =>
    obtain ⟨f, hf⟩ := exceptOk_of_isOk (hok e (by simp))
    have hes : ∀ x ∈ es, (extract_entry x).isOk = true :=
      fun x hx => hok x (by simp [hx])
    simp only [parse_top_anime, List.filterMap_cons, processEntry_ok fetch e f hf,
      Except.toOption, List.map_cons] at ih ⊢
    rw [ih hes, show recOf fetch e =
      { Rank := f.rank, Title := f.title, Score := f.score,
        Rating_Users := f.rating_users,
        details := parse_anime_details fetch f.link } from by simp [recOf, hf]]

/-! ## Claim C8 -/

/-- Claim C8: with zero collected records, `save_data` raises the fatal
`AnimeScraperError` and performs no filesystem effect — no CSV is written
and no output directory is created. -/
theorem save_data_empty_error_fs_unchanged (filepath parent : String) (fs : FS) :
    (save_data [] filepath parent fs).1 = .error (.scraperError "No data to save") ∧
    (save_data [] filepath parent fs).2 = fs := by
  exact ⟨rfl, rfl⟩

/-! ## Claim C2 -/

/-- Claim C2: an entry row whose processing raises is skipped and the loop
continues, so the number of records produced equals the number of
successfully processed entry rows, and no entry-level exception terminates
the crawl. -/
theorem entry_failures_skipped (fetch : String → Except ScrapeErr DetailPage) :
    (∀ entries : List Entry,
        (parse_top_anime fetch entries).length =
          entries.countP (fun e => (processEntry fetch e).toOption.isSome)) ∧
    (∀ (e : Entry) (es : List Entry), (processEntry fetch e).toOption = none →
        parse_top_anime fetch (e :: es) = parse_top_anime fetch es) := by
  constructor
  · intro entries
    induction entries with
    | nil => rfl
    | cons e es ih =>
      simp only [parse_top_anime] at ih ⊢
      cases h : (processEntry fetch e).toOption <;>
        simp [List.filterMap_cons, List.countP_cons, h, ih]
  · intro e es h
    simp [parse_top_anime, List.filterMap_cons, h]

/-- Witness for C2 at concrete inputs: of three entries one (with a missing
rank cell) fails, two records come out; the failing entry is skipped and
the crawl continues. -/
theorem entry_failures_skipped_witness :
    (parse_top_anime fetchAllOk [entryA, entryBad, entryB]).length = 2 ∧
    parse_top_anime fetchAllOk (entryBad :: [entryA]) =
      parse_top_anime fetchAllOk [entryA] := by
  constructor
  · rw [(entry_failures_skipped fetchAllOk).1 [entryA, entryBad, entryB]]
    decide
  · exact (entry_failures_skipped fetchAllOk).2 entryBad [entryA] (by decide)

/-! ## Claim C1 -/

/-- Claim C1: any exception while fetching or extracting detail fields for
one title is caught by `parse_anime_details`, which returns the all-default
detail record (all text fields `"Unknown"`, all counts `0`,
`Season_Number` `1`); consequently a crawl of `N` well-formed listing
entries in which exactly one detail fetch raises still yields `N` records. -/
theorem detail_failure_yields_defaults (fetch : String → Except ScrapeErr DetailPage) :
    (∀ url : String, ((fetch url).bind extract_details).isOk = false →
        parse_anime_details fetch url =
          { «Type» := "Unknown", Episodes := "Unknown", Duration := "Unknown",
            Source := "Unknown", Aired := "Unknown", Season := "Unknown",
            Genres := "Unknown", Watching := 0, Completed := 0, On_Hold := 0,
            Dropped := 0, Plan_to_Watch := 0, Season_Number := 1 }) ∧
    (∀ entries : List Entry,
        (∀ e ∈ entries, (extract_entry e).isOk = true) →
        entries.countP (fun e =>
            match extract_entry e with
            | .ok f => !((fetch f.link).bind extract_details).isOk
            | .error _ => false) = 1 →
        (parse_top_anime fetch entries).length = entries.length) := by
  constructor
  · intro url h
    unfold parse_anime_details
    cases hx : (fetch url).bind extract_details with
    | ok info => rw [hx] at h; simp [Except.isOk, Except.toBool] at h
    | error e => rfl
  · intro entries hok _hone
    rw [parse_top_anime_all_ok fetch entries hok, List.length_map]

/-- Witness for C1: a two-entry crawl where only the detail fetch of the
first entry's link fails still yields two records, the failed one carrying
the default detail record. -/
theorem detail_failure_yields_defaults_witness :
    parse_anime_details fetchOneFail "u" =
      { «Type» := "Unknown", Episodes := "Unknown", Duration := "Unknown",
        Source := "Unknown", Aired := "Unknown", Season := "Unknown",
        Genres := "Unknown", Watching := 0, Completed := 0, On_Hold := 0,
        Dropped := 0, Plan_to_Watch := 0, Season_Number := 1 } ∧
    (parse_top_anime fetchOneFail [entryA, entryB]).length = 2 := by
  exact ⟨(detail_failure_yields_defaults fetchOneFail).1 "u" (by decide),
    (detail_failure_yields_defaults fetchOneFail).2 [entryA, entryB]
      (by decide) (by decide)⟩

/-! ## Claim C6 -/

/-- Claim C6 (code bug): the source's `if score_td else 0.0` default is
defeated by the unconditional `score_td.get_text(strip=True)` on the next
line — with the score cell absent the entry raises `AttributeError` and is
skipped, not emitted with `Score = 0.0`. The `"by N users"` half of the
claim does hold: with the text absent the entry is emitted with
`Rating_Users = 0`. -/
theorem score_cell_absent_entry_skipped :
    extract_entry entryNoScore = .error .attributeError ∧
    parse_top_anime fetchAllOk [entryNoScore] = [] ∧
    (extract_entry entryNoUsers).toOption.map (fun f => (f.score, f.rating_users)) =
      some ((15 : ℚ) / 2, 0) := by
  refine ⟨rfl, rfl, by decide⟩

/-! ## Claim C7 -/

theorem crawl_records_eq (fetch : String → Except ScrapeErr DetailPage)
    (pages : List (List Entry)) :
    crawl_records fetch pages = parse_top_anime fetch pages.flatten := by
  suffices h : ∀ acc : List RawRecord,
      pages.foldl (fun a p => a ++ parse_top_anime fetch p) acc =
        acc ++ parse_top_anime fetch pages.flatten by
    simpa using h []
  induction pages with
  | nil => intro acc; simp [parse_top_anime]
  | cons p ps ih =>
    intro acc
    rw [List.foldl_cons, ih (acc ++ parse_top_anime fetch p), List.flatten_cons,
      show parse_top_anime fetch (p ++ ps.flatten) =
          parse_top_anime fetch p ++ parse_top_anime fetch ps.flatten from by
        simp [parse_top_anime, List.filterMap_append],
      List.append_assoc]

/-- Claim C7: when every entry of the (joined, in fetch order) listing
pages parses and the rank cell of the `i`-th listing position reads
`i + 1`, the crawl emits one record per position in that order, the `i`-th
emitted record holds rank `i + 1`, and the rank values are unique — no
re-sorting happens at the collection stage. -/
theorem rank_position_correspondence (fetch : String → Except ScrapeErr DetailPage)
    (pages : List (List Entry))
    (hok : ∀ e ∈ pages.flatten, (extract_entry e).isOk = true)
    (hrank : ∀ i : Fin pages.flatten.length,
        (extract_entry (pages.flatten.get i)).toOption.map EntryFields.rank =
          some ((i : ℕ) + 1 : ℤ)) :
    (crawl_records fetch pages).length = pages.flatten.length ∧
    (∀ (i : ℕ) (h : i < (crawl_records fetch pages).length),
        ((crawl_records fetch pages).get ⟨i, h⟩).Rank = ((i : ℕ) + 1 : ℤ)) ∧
    ((crawl_records fetch pages).map RawRecord.Rank).Nodup := by
  have hco : crawl_records fetch pages = (pages.flatten).map (recOf fetch) := by
    rw [crawl_records_eq, parse_top_anime_all_ok fetch _ hok]
  have hlen : (crawl_records fetch pages).length = pages.flatten.length := by
    rw [hco, List.length_map]
  have hget : ∀ (i : ℕ) (h : i < (crawl_records fetch pages).length),
      ((crawl_records fetch pages).get ⟨i, h⟩).Rank = ((i : ℕ) + 1 : ℤ) := by
    intro i h
    have hi' : i < pages.flatten.length := hlen ▸ h
    have h1 : (crawl_records fetch pages).get ⟨i, h⟩ =
        recOf fetch (pages.flatten.get ⟨i, hi'⟩) := by
      simp only [List.get_eq_getElem]
      simp only [hco, List.getElem_map]
    have h2 := hrank ⟨i, hi'⟩
    cases hx : extract_entry (pages.flatten.get ⟨i, hi'⟩) with
    | error e => rw [hx] at h2; simp [Except.toOption] at h2
    | ok f =>
      rw [hx] at h2
      simp only [Except.toOption, Option.map_some] at h2
      rw [h1, recOf, hx]
      simpa using h2
  refine ⟨hlen, hget, ?_⟩
  have hmap : (crawl_records fetch pages).map RawRecord.Rank =
      (List.range pages.flatten.length).map (fun n => ((n : ℕ) + 1 : ℤ)) := by
    apply List.ext_getElem
    · simp [hlen]
    · intro i h1 h2
      have hi : i < (crawl_records fetch pages).length := by
        simpa using h1
      have := hget i hi
      simp only [List.get_eq_getElem] at this
      simp [List.getElem_map, List.getElem_range, this]
  rw [hmap]
  refine List.Nodup.map ?_ (List.nodup_range _)
  intro a b hab
  have := add_right_cancel hab
  exact_mod_cast this

/-- Witness for C7: a two-page crawl (one entry per page, rank cells 1 and
2) yields two records with distinct ranks. -/
theorem rank_position_correspondence_witness :
    (crawl_records fetchAllOk wPages).length = 2 ∧
    ((crawl_records fetchAllOk wPages).map RawRecord.Rank).Nodup := by
  obtain ⟨h1, _, h3⟩ :=
    rank_position_correspondence fetchAllOk wPages (by decide) (by decide)
  exact ⟨h1.trans rfl, h3⟩

/-! ## Claim C5 -/

theorem extract_details_ok_season (page : DetailPage) (info : DetailInfo)
    (hok : extract_details page = .ok info) :
    ∃ t, labelField page "Type:" = .ok t ∧
      info.Season_Number = season_number t page.textFragments := by
  unfold extract_details at hok
  obtain ⟨t, h1, hok⟩ := exceptBind_ok hok
  obtain ⟨eps, _, hok⟩ := exceptBind_ok hok
  obtain ⟨dur, _, hok⟩ := exceptBind_ok hok
  obtain ⟨src, _, hok⟩ := exceptBind_ok hok
  obtain ⟨aired, _, hok⟩ := exceptBind_ok hok
  obtain ⟨season, _, hok⟩ := exceptBind_ok hok
  obtain ⟨watching, _, hok⟩ := exceptBind_ok hok
  obtain ⟨completed, _, hok⟩ := exceptBind_ok hok
  obtain ⟨onhold, _, hok⟩ := exceptBind_ok hok
  obtain ⟨dropped, _, hok⟩ := exceptBind_ok hok
  obtain ⟨ptw, _, hok⟩ := exceptBind_ok hok
  have hinfo : info.Season_Number = season_number t page.textFragments := by
    have h : info = _ := (by simpa [pure, Except.pure] using hok.symm)
    rw [h]
  exact ⟨t, h1, hinfo⟩

/-- Claim C5 (counterexample): on a TV page whose first `"Season"` fragment
is `"2nd Season (2020)"`, the code concatenates *all* digit characters of
the fragment and yields `Season_Number = 22020`, while the claim's "leading
digit run" rule yields `2`; and on a `"Season 0"` fragment the code yields
`0`, contradicting "always a positive integer". -/
theorem season_number_counterexample :
    (parse_anime_details fetchSeasonCx "u").Season_Number = 22020 ∧
    season_number_claim "TV" pageSeasonCx.textFragments = 2 ∧
    season_number "TV" pageSeasonCx.textFragments ≠
      season_number_claim "TV" pageSeasonCx.textFragments ∧
    season_number "TV" ["Season 0"] = 0 := by
  exact ⟨by decide, by decide, by decide, by decide⟩

/-- Claim C5 (amended): `Season_Number` is inferred only when the extracted
`Type` starts with `"TV"`: the first text fragment containing `"Season"` is
taken and the concatenation of *all* its digit characters is parsed as the
season number; when the fragment is absent, has no digits, or the `Type` is
not TV, `Season_Number` is `1`. The result is a natural number that can be
`0` (all-zero digits) rather than always positive. -/
theorem season_number_characterization
    (fetch : String → Except ScrapeErr DetailPage) (url : String)
    (page : DetailPage) (info : DetailInfo)
    (hf : fetch url = .ok page) (hok : extract_details page = .ok info)
    (t : String) (ht : labelField page "Type:" = .ok t) :
    (parse_anime_details fetch url).Season_Number = season_number t page.textFragments ∧
    (pyStartswith "TV" t = false → season_number t page.textFragments = 1) ∧
    (seasonFragment page.textFragments = none → season_number t page.textFragments = 1) ∧
    (∀ frag, seasonFragment page.textFragments = some frag →
      (seasonDigits frag = [] → season_number t page.textFragments = 1) ∧
      (seasonDigits frag ≠ [] → pyStartswith "TV" t = true →
        season_number t page.textFragments = digitsToNat (seasonDigits frag))) := by
  obtain ⟨t', ht', hsn⟩ := extract_details_ok_season page info hok
  rw [ht] at ht'
  injection ht' with htt
  subst htt
  refine ⟨?_, ?_, ?_, ?_⟩
  · have hpd : parse_anime_details fetch url = info := by
      unfold parse_anime_details
      rw [hf, show Except.bind (Except.ok page) extract_details =
        extract_details page from rfl, hok]
    rw [hpd, hsn]
  · intro h; simp [season_number, h]
  · intro h
    cases hTV : pyStartswith "TV" t <;> simp [season_number, hTV, h]
  · intro frag hfrag
    constructor
    · intro hd
      cases hTV : pyStartswith "TV" t <;>
        simp [season_number, hTV, hfrag, hd]
    · intro hd hTV
      simp [season_number, hTV, hfrag, hd]

/-- Witness for C5 (amended): a TV page with fragment `"Season 2"` gets
season number `2` through the full `parse_anime_details` pipeline. -/
theorem season_number_characterization_witness :
    (parse_anime_details fetchSeasonW "u").Season_Number = 2 := by
  have h := season_number_characterization fetchSeasonW "u" pageSeasonW _
    rfl rfl "TV" rfl
  rw [h.1]; decide

/-! ## clean.py — step lemmas -/

theorem mem_insertCol (h : List String) (c a : String) :
    a ∈ insertCol h c ↔ a ∈ h ∨ a = c := by
  unfold insertCol
  by_cases hc : c ∈ h
  · simp only [if_pos hc]
    constructor
    · exact Or.inl
    · rintro (ha | rfl) <;> [exact ha; exact hc]
  · simp [if_neg hc, List.mem_append]

theorem transformCol_ok (df : DF) (c : String) (f : Cell → Cell)
    (h : c ∈ df.header) :
    df.transformCol c f =
      .ok ⟨df.header, df.rows.map (fun r => Function.update r c (f (r c)))⟩ := by
  simp [DF.transformCol, h]

theorem transformCol_ok_inv {df : DF} {c : String} {f : Cell → Cell} {d : DF}
    (h : df.transformCol c f = .ok d) :
    c ∈ df.header ∧ d.header = df.header ∧
      d.rows = df.rows.map (fun r => Function.update r c (f (r c))) := by
  by_cases hc : c ∈ df.header
  · rw [transformCol_ok df c f hc] at h
    injection h with h
    exact ⟨hc, by rw [← h], by rw [← h]⟩
  · simp [DF.transformCol, hc] at h

theorem cleanRatingUsers_ok (df : DF) (h : "Rating_Users" ∈ df.header) :
    cleanRatingUsers df =
      .ok ⟨df.header, df.rows.map (fun r =>
        Function.update r "Rating_Users"
          (ruCleanFun (ruObjectFlag df) (r "Rating_Users")))⟩ := by
  unfold cleanRatingUsers
  rw [if_pos h]
  rfl

theorem cleanRatingUsers_ok_inv {df d : DF} (h : cleanRatingUsers df = .ok d) :
    "Rating_Users" ∈ df.header ∧ d.header = df.header ∧
      d.rows = df.rows.map (fun r =>
        Function.update r "Rating_Users"
          (ruCleanFun (ruObjectFlag df) (r "Rating_Users"))) := by
  by_cases hc : "Rating_Users" ∈ df.header
  · rw [cleanRatingUsers_ok df hc] at h
    injection h with h
    exact ⟨hc, by rw [← h], by rw [← h]⟩
  · unfold cleanRatingUsers at h
    rw [if_neg hc] at h
    cases h

theorem addDerived_ok (df : DF) (h : ∀ c ∈ status_cols, c ∈ df.header) :
    addDerived df =
      .ok ⟨insertCol (insertCol df.header "Total_Watchers") "Completion_Rate",
        df.rows.map (fun r =>
          let r10 := Function.update r "Total_Watchers"
            (pandasSum (status_cols.map (fun c => r c)))
          Function.update r10 "Completion_Rate"
            (completionCell (r10 "Completed") (r10 "Total_Watchers")))⟩ := by
  have h1 : status_cols.all (fun c => decide (c ∈ df.header)) = true := by
    rw [List.all_eq_true]
    exact fun c hc => decide_eq_true (h c hc)
  have h2 : "Completed" ∈ insertCol df.header "Total_Watchers" ∧
      "Total_Watchers" ∈ insertCol df.header "Total_Watchers" := by
    constructor
    · exact (mem_insertCol _ _ _).mpr (Or.inl (h "Completed" (by decide)))
    · exact (mem_insertCol _ _ _).mpr (Or.inr rfl)
  unfold addDerived
  rw [if_pos h1, if_pos h2, List.map_map]
  rfl

theorem addDerived_ok_inv {df d : DF} (h : addDerived df = .ok d) :
    ∀ c ∈ status_cols, c ∈ df.header := by
  by_cases hall : ∀ c ∈ status_cols, c ∈ df.header
  · exact hall
  · exfalso
    have h1 : status_cols.all (fun c => decide (c ∈ df.header)) = false := by
      rcases not_forall.mp hall with ⟨c, hc⟩
      push_neg at hc
      rw [List.all_eq_false]
      exact ⟨c, hc.1, by simpa using hc.2⟩
    unfold addDerived at h
    rw [h1] at h
    simp at h

theorem transformCol_ok2 (hdr : List String) (rows : List Row) (c : String)
    (f : Cell → Cell) (h : c ∈ hdr) :
    DF.transformCol ⟨hdr, rows⟩ c f =
      .ok ⟨hdr, rows.map (fun r => Function.update r c (f (r c)))⟩ := by
  simp [DF.transformCol, h]

theorem cleanRatingUsers_ok2 (hdr : List String) (rows : List Row)
    (h : "Rating_Users" ∈ hdr) :
    cleanRatingUsers ⟨hdr, rows⟩ =
      .ok ⟨hdr, rows.map (fun r => Function.update r "Rating_Users"
        (ruCleanFun (ruObjectFlag ⟨hdr, rows⟩) (r "Rating_Users")))⟩ := by
  unfold cleanRatingUsers
  rw [if_pos h]
  rfl

theorem addDerived_ok2 (hdr : List String) (rows : List Row)
    (h : ∀ c ∈ status_cols, c ∈ hdr) :
    addDerived ⟨hdr, rows⟩ =
      .ok ⟨insertCol (insertCol hdr "Total_Watchers") "Completion_Rate",
        rows.map (fun r =>
          let r10 := Function.update r "Total_Watchers"
            (pandasSum (status_cols.map (fun c => r c)))
          Function.update r10 "Completion_Rate"
            (completionCell (r10 "Completed") (r10 "Total_Watchers")))⟩ := by
  have h1 : status_cols.all (fun c => decide (c ∈ hdr)) = true := by
    rw [List.all_eq_true]
    exact fun c hc => decide_eq_true (h c hc)
  have h2 : "Completed" ∈ insertCol hdr "Total_Watchers" ∧
      "Total_Watchers" ∈ insertCol hdr "Total_Watchers" := by
    constructor
    · exact (mem_insertCol _ _ _).mpr (Or.inl (h "Completed" (by decide)))
    · exact (mem_insertCol _ _ _).mpr (Or.inr rfl)
  unfold addDerived
  rw [if_pos h1, if_pos h2, List.map_map]
  rfl

/-- On a frame with every required column the whole deterministic part of
`clean_anime_data` succeeds and acts row-wise as `cleanRowFun`. -/
theorem clean_core_eq (df : DF) (h : ∀ c ∈ required_cols, c ∈ df.header) :
    clean_anime_data_core df =
      .ok ⟨insertCol (insertCol df.header "Total_Watchers") "Completion_Rate",
           df.rows.map (cleanRowFun (ruObjectFlag df))⟩ := by
  have hS : "Score" ∈ df.header := h _ (by decide)
  have hRU : "Rating_Users" ∈ df.header := h _ (by decide)
  have hE : "Episodes" ∈ df.header := h _ (by decide)
  have hT : "Type" ∈ df.header := h _ (by decide)
  have hW : "Watching" ∈ df.header := h _ (by decide)
  have hC : "Completed" ∈ df.header := h _ (by decide)
  have hO : "On_Hold" ∈ df.header := h _ (by decide)
  have hD : "Dropped" ∈ df.header := h _ (by decide)
  have hP : "Plan_to_Watch" ∈ df.header := h _ (by decide)
  have hfun : ∀ r : Row,
      Function.update r "Score" (toNumericCell (r "Score")) "Rating_Users" =
        r "Rating_Users" := fun r => by
    simp [Function.update_apply]
  have hflag : ruObjectFlag ⟨df.header, df.rows.map (fun r =>
      Function.update r "Score" (toNumericCell (r "Score")))⟩ = ruObjectFlag df := by
    simp only [ruObjectFlag, List.map_map, Function.comp_def, hfun]
    rfl
  have hbind : ∀ (x : DF) (k : DF → Except CleanErr DF), (Except.ok x) >>= k = k x :=
    fun _ _ => rfl
  obtain ⟨hdr, rows⟩ := df
  have hAll : ∀ c ∈ status_cols, c ∈ hdr := by
    intro c hc
    have hc' : c = "Watching" ∨ c = "Completed" ∨ c = "On_Hold" ∨
        c = "Dropped" ∨ c = "Plan_to_Watch" := by
      simpa [status_cols] using hc
    rcases hc' with rfl | rfl | rfl | rfl | rfl <;> assumption
  unfold clean_anime_data_core
  rw [transformCol_ok2 hdr rows "Score" toNumericCell hS, hbind,
    cleanRatingUsers_ok2 hdr _ hRU, hflag, hbind,
    transformCol_ok2 hdr _ "Episodes" _ hE, hbind,
    transformCol_ok2 hdr _ "Type" _ hT, hbind,
    transformCol_ok2 hdr _ "Watching" _ hW, hbind,
    transformCol_ok2 hdr _ "Completed" _ hC, hbind,
    transformCol_ok2 hdr _ "On_Hold" _ hO, hbind,
    transformCol_ok2 hdr _ "Dropped" _ hD, hbind,
    transformCol_ok2 hdr _ "Plan_to_Watch" _ hP, hbind,
    addDerived_ok2 hdr _ hAll]
  simp only [List.map_map]
  rfl

theorem clean_core_ok_header {df d : DF}
    (hok : clean_anime_data_core df = .ok d) :
    ∀ c ∈ required_cols, c ∈ df.header := by
  unfold clean_anime_data_core at hok
  obtain ⟨df1, h1, hok⟩ := exceptBind_ok hok
  obtain ⟨df2, h2, hok⟩ := exceptBind_ok hok
  obtain ⟨df3, h3, hok⟩ := exceptBind_ok hok
  obtain ⟨df4, h4, hok⟩ := exceptBind_ok hok
  obtain ⟨df5, h5, hok⟩ := exceptBind_ok hok
  obtain ⟨df6, h6, hok⟩ := exceptBind_ok hok
  obtain ⟨df7, h7, hok⟩ := exceptBind_ok hok
  obtain ⟨df8, h8, hok⟩ := exceptBind_ok hok
  obtain ⟨df9, h9, hok⟩ := exceptBind_ok hok
  obtain ⟨hS, e1, -⟩ := transformCol_ok_inv h1
  obtain ⟨hRU, e2, -⟩ := cleanRatingUsers_ok_inv h2
  obtain ⟨hE, e3, -⟩ := transformCol_ok_inv h3
  obtain ⟨hT, e4, -⟩ := transformCol_ok_inv h4
  obtain ⟨hW, e5, -⟩ := transformCol_ok_inv h5
  obtain ⟨hC, e6, -⟩ := transformCol_ok_inv h6
  obtain ⟨hO, e7, -⟩ := transformCol_ok_inv h7
  obtain ⟨hD, e8, -⟩ := transformCol_ok_inv h8
  obtain ⟨hP, e9, -⟩ := transformCol_ok_inv h9
  have q1 : df1.header = df.header := e1
  have q2 : df2.header = df.header := by rw [e2, q1]
  have q3 : df3.header = df.header := by rw [e3, q2]
  have q4 : df4.header = df.header := by rw [e4, q3]
  have q5 : df5.header = df.header := by rw [e5, q4]
  have q6 : df6.header = df.header := by rw [e6, q5]
  have q7 : df7.header = df.header := by rw [e7, q6]
  have q8 : df8.header = df.header := by rw [e8, q7]
  intro c hc
  have hc' : c = "Score" ∨ c = "Rating_Users" ∨ c = "Episodes" ∨ c = "Type" ∨
      c = "Watching" ∨ c = "Completed" ∨ c = "On_Hold" ∨ c = "Dropped" ∨
      c = "Plan_to_Watch" := by
    simpa [required_cols] using hc
  rcases hc' with rfl | rfl | rfl | rfl | rfl | rfl | rfl | rfl | rfl
  · exact hS
  · exact q1 ▸ hRU
  · exact q2 ▸ hE
  · exact q3 ▸ hT
  · exact q4 ▸ hW
  · exact q5 ▸ hC
  · exact q6 ▸ hO
  · exact q7 ▸ hD
  · exact q8 ▸ hP

/-! ## Claim C10 -/

/-- Claim C10 (counterexample): a table that has every column the cleaner
reads but no `Genres` column is cleaned without any lookup error —
`clean.py` never accesses `Genres`, so the claim's inclusion of `Genres`
among the required columns is wrong. -/
theorem genres_not_required :
    "Genres" ∉ dfNoGenres.header ∧
    (clean_anime_data_core dfNoGenres).isOk = true ∧
    (∃ df', clean_anime_data dfNoGenres df') := by
  refine ⟨by decide, ?_, ?_⟩
  · rw [clean_core_eq dfNoGenres (fun c hc => hc)]
    rfl
  · refine ⟨⟨insertCol (insertCol dfNoGenres.header "Total_Watchers")
      "Completion_Rate", []⟩,
      ⟨_, clean_core_eq dfNoGenres (fun c hc => hc), rfl, ?_, ?_⟩⟩
    · exact List.Perm.refl _
    · exact List.Pairwise.nil

/-- Claim C10 (amended): `clean_anime_data` reads the columns `Score`,
`Rating_Users`, `Episodes`, `Type`, `Watching`, `Completed`, `On_Hold`,
`Dropped`, `Plan_to_Watch`; missing any of these makes it raise a
`KeyError` instead of substituting a default (`Genres`, of the original
claim's list, is never read and its absence raises nothing). -/
theorem missing_required_column_raises (df : DF) (c : String)
    (hc : c ∈ required_cols) (hm : c ∉ df.header) :
    (∃ col, clean_anime_data_core df = .error (.keyError col)) ∧
    ∀ df', ¬ clean_anime_data df df' := by
  cases hk : clean_anime_data_core df with
  | ok d => exact absurd (clean_core_ok_header hk c hc) hm
  | error e =>
    cases e with
    | keyError col =>
      refine ⟨⟨col, rfl⟩, ?_⟩
      rintro df' ⟨mid, hmid, -⟩
      rw [hk] at hmid
      cases hmid

/-- Witness for C10 (amended): a table with only `Rank` and `Title`
columns makes the cleaner raise a `KeyError`. -/
theorem missing_required_column_raises_witness :
    (∃ col, clean_anime_data_core dfMissingScore = .error (.keyError col)) ∧
    ∀ df', ¬ clean_anime_data dfMissingScore df' :=
  missing_required_column_raises dfMissingScore "Score" (by decide) (by decide)

/-! ## Claim C3 -/

theorem statusClean_csv (c : Cell) (h : isCsvCell c) :
    statusClean c = .num (statusQ c) := by
  cases c with
  | str s =>
    show fillna0 (toNumericCell (Cell.str s)) = Cell.num (statusQ (Cell.str s))
    dsimp only [toNumericCell, statusQ]
    cases pyFloatOfChars (pyStripChars s.toList) <;> rfl
  | num q => rfl
  | nan => rfl
  | pinf => exact absurd h (by simp [isCsvCell])
  | ninf => exact absurd h (by simp [isCsvCell])

/-- The reads of the status, `Total_Watchers` and `Completion_Rate` cells
of a cleaned row, traced through the update chain of `cleanRowFun`. -/
theorem cleanRowFun_reads (b : Bool) (r : Row) :
    (cleanRowFun b r) "Watching" = statusClean (r "Watching") ∧
    (cleanRowFun b r) "Completed" = statusClean (r "Completed") ∧
    (cleanRowFun b r) "On_Hold" = statusClean (r "On_Hold") ∧
    (cleanRowFun b r) "Dropped" = statusClean (r "Dropped") ∧
    (cleanRowFun b r) "Plan_to_Watch" = statusClean (r "Plan_to_Watch") ∧
    (cleanRowFun b r) "Total_Watchers" =
      pandasSum [statusClean (r "Watching"), statusClean (r "Completed"),
        statusClean (r "On_Hold"), statusClean (r "Dropped"),
        statusClean (r "Plan_to_Watch")] ∧
    (cleanRowFun b r) "Completion_Rate" =
      completionCell (statusClean (r "Completed"))
        (pandasSum [statusClean (r "Watching"), statusClean (r "Completed"),
          statusClean (r "On_Hold"), statusClean (r "Dropped"),
          statusClean (r "Plan_to_Watch")]) := by
  refine ⟨?_, ?_, ?_, ?_, ?_, ?_, ?_⟩ <;>
    simp [cleanRowFun, status_cols, Function.update_apply]

theorem pandasSum_five (a b c d e : ℚ) :
    pandasSum [.num a, .num b, .num c, .num d, .num e] =
      .num (a + b + c + d + e) := by
  show Cell.num (a + (b + (c + (d + (e + 0))))) = _
  norm_num [add_assoc]

theorem completionCell_total_zero :
    completionCell (.num 0) (.num 0) = .num 0 := rfl

theorem completionCell_total_ne {c T : ℚ} (hT : T ≠ 0) :
    completionCell (.num c) (.num T) = .num (round2 (c / T * 100)) := by
  simp [completionCell, cellDiv, hT, cellMul100, cellRound2, fillna0]

theorem roundHalfEven_nonneg {q : ℚ} (h : 0 ≤ q) : 0 ≤ roundHalfEven q := by
  have hf : (0 : ℤ) ≤ ⌊q⌋ := Int.le_floor.mpr (by exact_mod_cast h)
  simp only [roundHalfEven]
  split_ifs <;> omega

theorem roundHalfEven_le {q : ℚ} {B : ℤ} (h : q ≤ (B : ℚ)) :
    roundHalfEven q ≤ B := by
  simp only [roundHalfEven]
  have hfB : ⌊q⌋ ≤ B := by
    have := Int.floor_le_floor h
    simpa using this
  have hlow : (⌊q⌋ : ℚ) ≤ q := Int.floor_le q
  split_ifs with h1 h2 h3
  · exact hfB
  · -- fractional part exceeds 1/2, so ⌊q⌋ is strictly below B
    have hhalf : (1 : ℚ) / 2 ≤ q - ⌊q⌋ := le_of_lt h2
    have hstrict : (⌊q⌋ : ℚ) < (B : ℚ) := by linarith
    have : ⌊q⌋ < B := by exact_mod_cast hstrict
    omega
  · exact hfB
  · have hhalf : (1 : ℚ) / 2 ≤ q - ⌊q⌋ := le_of_not_lt h1
    have hstrict : (⌊q⌋ : ℚ) < (B : ℚ) := by linarith
    have : ⌊q⌋ < B := by exact_mod_cast hstrict
    omega

theorem round2_bounds {x : ℚ} (h0 : 0 ≤ x) (h1 : x ≤ 100) :
    0 ≤ round2 x ∧ round2 x ≤ 100 := by
  have ha : 0 ≤ x * 100 := by positivity
  have hb : x * 100 ≤ ((10000 : ℤ) : ℚ) := by push_cast; linarith
  have c1 := roundHalfEven_nonneg ha
  have c2 := roundHalfEven_le hb
  unfold round2
  constructor
  · apply div_nonneg _ (by norm_num)
    exact_mod_cast c1
  · rw [div_le_iff₀ (by norm_num : (0 : ℚ) < 100)]
    calc ((roundHalfEven (x * 100) : ℤ) : ℚ) ≤ ((10000 : ℤ) : ℚ) := by
          exact_mod_cast c2
      _ = 100 * 100 := by norm_num

/-- Claim C3: for every cleaned row (raw status cells being finite CSV
values with non-negative cleaned magnitudes), `Total_Watchers` is the sum
of the five cleaned status counts, `Completion_Rate` is exactly `0` when
that total is `0`, equals `Completed / Total_Watchers * 100` rounded to two
decimals when the total is positive, and then lies in `[0, 100]`. -/
theorem completion_rate_formula (df df' : DF)
    (hrel : clean_anime_data df df')
    (hcsv : ∀ r ∈ df.rows, ∀ c ∈ status_cols, isCsvCell (r c))
    (hpos : ∀ r ∈ df.rows, ∀ c ∈ status_cols, 0 ≤ statusQ (r c)) :
    ∀ r' ∈ df'.rows, ∃ w cc oh dd pp : ℚ,
      r' "Watching" = .num w ∧ r' "Completed" = .num cc ∧
      r' "On_Hold" = .num oh ∧ r' "Dropped" = .num dd ∧
      r' "Plan_to_Watch" = .num pp ∧
      0 ≤ w ∧ 0 ≤ cc ∧ 0 ≤ oh ∧ 0 ≤ dd ∧ 0 ≤ pp ∧
      r' "Total_Watchers" = .num (w + cc + oh + dd + pp) ∧
      (w + cc + oh + dd + pp = 0 → r' "Completion_Rate" = .num 0) ∧
      (0 < w + cc + oh + dd + pp →
        r' "Completion_Rate" =
          .num (round2 (cc / (w + cc + oh + dd + pp) * 100)) ∧
        0 ≤ round2 (cc / (w + cc + oh + dd + pp) * 100) ∧
        round2 (cc / (w + cc + oh + dd + pp) * 100) ≤ 100) := by
  obtain ⟨mid, hcore, hhdr, hperm, hpw⟩ := hrel
  have hreq := clean_core_ok_header hcore
  have heq := clean_core_eq df hreq
  rw [heq] at hcore
  injection hcore with hcore
  have hmidrows : mid.rows = df.rows.map (cleanRowFun (ruObjectFlag df)) := by
    rw [← hcore]
  intro r' hr'
  have hr'mid : r' ∈ mid.rows := hperm.mem_iff.mpr hr'
  rw [hmidrows] at hr'mid
  obtain ⟨r, hr, hmap⟩ := List.mem_map.mp hr'mid
  obtain ⟨hw, hc, ho, hd, hp, htw, hcr⟩ := cleanRowFun_reads (ruObjectFlag df) r
  rw [hmap] at hw hc ho hd hp htw hcr
  have cW := statusClean_csv _ (hcsv r hr "Watching" (by decide))
  have cC := statusClean_csv _ (hcsv r hr "Completed" (by decide))
  have cO := statusClean_csv _ (hcsv r hr "On_Hold" (by decide))
  have cD := statusClean_csv _ (hcsv r hr "Dropped" (by decide))
  have cP := statusClean_csv _ (hcsv r hr "Plan_to_Watch" (by decide))
  rw [cW] at hw htw hcr
  rw [cC] at hc htw hcr
  rw [cO] at ho htw hcr
  rw [cD] at hd htw hcr
  rw [cP] at hp htw hcr
  rw [pandasSum_five] at htw hcr
  set w := statusQ (r "Watching") with hwdef
  set cc := statusQ (r "Completed") with hccdef
  set oh := statusQ (r "On_Hold") with hohdef
  set dd := statusQ (r "Dropped") with hdddef
  set pp := statusQ (r "Plan_to_Watch") with hppdef
  have pW : 0 ≤ w := hpos r hr "Watching" (by decide)
  have pC : 0 ≤ cc := hpos r hr "Completed" (by decide)
  have pO : 0 ≤ oh := hpos r hr "On_Hold" (by decide)
  have pD : 0 ≤ dd := hpos r hr "Dropped" (by decide)
  have pP : 0 ≤ pp := hpos r hr "Plan_to_Watch" (by decide)
  refine ⟨w, cc, oh, dd, pp, hw, hc, ho, hd, hp, pW, pC, pO, pD, pP, htw, ?_, ?_⟩
  · intro hzero
    have hcc0 : cc = 0 := by linarith
    rw [hcr, hzero, hcc0]
    exact completionCell_total_zero
  · intro hposT
    have hT : w + cc + oh + dd + pp ≠ 0 := ne_of_gt hposT
    have hfrac0 : 0 ≤ cc / (w + cc + oh + dd + pp) * 100 := by positivity
    have hfrac1 : cc / (w + cc + oh + dd + pp) * 100 ≤ 100 := by
      have hle : cc ≤ w + cc + oh + dd + pp := by linarith
      have : cc / (w + cc + oh + dd + pp) ≤ 1 :=
        (div_le_one hposT).mpr hle
      linarith
    obtain ⟨b0, b1⟩ := round2_bounds hfrac0 hfrac1
    exact ⟨by rw [hcr, completionCell_total_ne hT], b0, b1⟩

/-- Witness for C3: the single-row raw table `df3w` (status counts
10/30/5/5/0) cleans to a row whose `Total_Watchers` is the status sum and
whose `Completion_Rate` is the rounded percentage, inside `[0, 100]`. -/
theorem completion_rate_formula_witness :
    ∃ df', clean_anime_data df3w df' ∧
      ∀ r' ∈ df'.rows, ∃ w cc oh dd pp : ℚ,
        r' "Total_Watchers" = Cell.num (w + cc + oh + dd + pp) ∧
        (0 < w + cc + oh + dd + pp →
          r' "Completion_Rate" =
            Cell.num (round2 (cc / (w + cc + oh + dd + pp) * 100)) ∧
          0 ≤ round2 (cc / (w + cc + oh + dd + pp) * 100) ∧
          round2 (cc / (w + cc + oh + dd + pp) * 100) ≤ 100) := by
  have hrel : clean_anime_data df3w
      ⟨insertCol (insertCol df3w.header "Total_Watchers") "Completion_Rate",
       df3w.rows.map (cleanRowFun (ruObjectFlag df3w))⟩ :=
    ⟨_, clean_core_eq df3w (by decide), rfl, List.Perm.refl _, by decide⟩
  refine ⟨_, hrel, ?_⟩
  intro r' hr'
  obtain ⟨w, cc, oh, dd, pp, -, -, -, -, -, -, -, -, -, -, htw, -, hcr⟩ :=
    completion_rate_formula df3w _ hrel (by decide) (by decide) r' hr'
  exact ⟨w, cc, oh, dd, pp, htw, hcr⟩

/-! ## Claim C4 -/

theorem scoreKey_le_num {x y : ℚ}
    (h : scoreKey (Cell.num x) ≤ scoreKey (Cell.num y)) : y ≤ x := by
  rcases (Prod.Lex.le_iff ((1 : ℕ), -x) ((1 : ℕ), -y)).mp h with hlt | ⟨-, hle⟩
  · exact absurd hlt (lt_irrefl _)
  · simpa using hle

theorem scoreKey_nan_le {cell : Cell}
    (h : scoreKey Cell.nan ≤ scoreKey cell) : cell = Cell.nan := by
  cases cell with
  | nan => rfl
  | num q =>
    rcases (Prod.Lex.le_iff ((4 : ℕ), (0 : ℚ)) ((1 : ℕ), -q)).mp h with hlt | ⟨heq, -⟩
    · omega
    · omega
  | pinf =>
    rcases (Prod.Lex.le_iff ((4 : ℕ), (0 : ℚ)) ((0 : ℕ), (0 : ℚ))).mp h with hlt | ⟨heq, -⟩
    · omega
    · omega
  | ninf =>
    rcases (Prod.Lex.le_iff ((4 : ℕ), (0 : ℚ)) ((2 : ℕ), (0 : ℚ))).mp h with hlt | ⟨heq, -⟩
    · omega
    · omega
  | str s =>
    rcases (Prod.Lex.le_iff ((4 : ℕ), (0 : ℚ)) ((3 : ℕ), (0 : ℚ))).mp h with hlt | ⟨heq, -⟩
    · omega
    · omega

/-- Claim C4 (counterexample): on a raw table with two equal-score rows
(distinguished by their `Title`), the swapped order is a perfectly valid
output of `sort_values('Score', ascending=False)` with its default unstable
quicksort — it is a permutation, ordered by descending score — yet differs
from the stable sort of the cleaned rows, so "rows with equal Score keep
their relative input order" is not guaranteed by the code. -/
theorem sort_stability_counterexample :
    clean_anime_data dfC4 outC4 ∧
    outC4.rows ≠ List.insertionSort rowLe (cleanCoreRows dfC4) := by
  have hcore := clean_core_eq dfC4 (by decide)
  have hrows : cleanCoreRows dfC4 = dfC4.rows.map (cleanRowFun (ruObjectFlag dfC4)) := by
    unfold cleanCoreRows
    rw [hcore]
  constructor
  · refine ⟨_, hcore, rfl, ?_, ?_⟩
    · show (dfC4.rows.map (cleanRowFun (ruObjectFlag dfC4))).Perm outC4.rows
      rw [show outC4.rows = (cleanCoreRows dfC4).reverse from rfl, hrows]
      exact (List.reverse_perm _).symm
    · show outC4.rows.Pairwise rowLe
      decide
  · intro hEq
    have h0 := congrArg (fun l : List Row => l.headI "Title") hEq
    simp only at h0
    have hB : outC4.rows.headI "Title" = Cell.str "B" := by decide
    have hA : (List.insertionSort rowLe (cleanCoreRows dfC4)).headI "Title" =
        Cell.str "A" := by decide
    rw [hB, hA] at h0
    exact (by decide : Cell.str "B" ≠ Cell.str "A") h0

/-- Claim C4 (amended): the cleaned output is a permutation of the cleaned
(pre-sort) record set, and adjacent rows have non-increasing `Score` with
missing scores placed last; the relative order of rows with equal `Score`
is unspecified (pandas' default quicksort is not stable). -/
theorem sorted_desc_amended (df df' : DF) (hrel : clean_anime_data df df') :
    df'.rows.Perm (cleanCoreRows df) ∧
    List.Chain' (fun a b =>
        (∀ x y : ℚ, a "Score" = Cell.num x → b "Score" = Cell.num y → y ≤ x) ∧
        (a "Score" = Cell.nan → b "Score" = Cell.nan)) df'.rows := by
  obtain ⟨mid, hcore, hhdr, hperm, hpw⟩ := hrel
  have hrows : cleanCoreRows df = mid.rows := by
    unfold cleanCoreRows
    rw [hcore]
  constructor
  · rw [hrows]
    exact hperm.symm
  · refine List.Pairwise.chain' (hpw.imp ?_)
    intro a b hab
    constructor
    · intro x y hx hy
      unfold rowLe at hab
      rw [hx, hy] at hab
      exact scoreKey_le_num hab
    · intro hx
      unfold rowLe at hab
      rw [hx] at hab
      exact scoreKey_nan_le hab

/-- Witness for C4 (amended): sorting the cleaned rows of `dfC4` with a
stable insertion sort is one valid `sort_values` outcome; the amended
ordering properties hold of it. -/
theorem sorted_desc_amended_witness :
    ∃ df', clean_anime_data dfC4 df' ∧
      df'.rows.Perm (cleanCoreRows dfC4) ∧
      List.Chain' (fun a b =>
          (∀ x y : ℚ, a "Score" = Cell.num x → b "Score" = Cell.num y → y ≤ x) ∧
          (a "Score" = Cell.nan → b "Score" = Cell.nan)) df'.rows := by
  have hrel : clean_anime_data dfC4
      ⟨insertCol (insertCol dfC4.header "Total_Watchers") "Completion_Rate",
       List.insertionSort rowLe (dfC4.rows.map (cleanRowFun (ruObjectFlag dfC4)))⟩ :=
    ⟨_, clean_core_eq dfC4 (by decide), rfl,
      (List.perm_insertionSort rowLe _).symm,
      List.sorted_insertionSort rowLe _⟩
  exact ⟨_, hrel, sorted_desc_amended dfC4 _ hrel⟩

/-! ## Claim C9 -/

theorem pandasSum_cons_num (q : ℚ) (cs : List Cell) :
    pandasSum (Cell.num q :: cs) =
      match pandasSum cs with
      | .num s => .num (q + s)
      | x => x := by
  unfold pandasSum
  simp only [List.filterMap_cons, List.any_cons, isPinfCell, isNinfCell,
    Bool.false_or]
  by_cases hp : cs.any isPinfCell <;> by_cases hn : cs.any isNinfCell <;>
    simp [hp, hn, isPinfCell, isNinfCell, List.sum_cons]

theorem pandasSum_nonneg_nums (cs : List Cell)
    (h : ∀ x ∈ cs, isNonnegNum x) :
    ∃ s, pandasSum cs = .num s ∧ 0 ≤ s ∧
      ((s = 0) ↔ ∀ x ∈ cs, x = .num 0) := by
  induction cs with
  | nil => exact ⟨0, rfl, le_refl _, by simp⟩
  | cons c cs ih =>
    have hc := h c (by simp)
    obtain ⟨s, hs, hs0, hiff⟩ := ih (fun x hx => h x (by simp [hx]))
    cases c with
    | num q =>
      have hq : 0 ≤ q := hc
      refine ⟨q + s, ?_, by linarith, ?_⟩
      · rw [pandasSum_cons_num, hs]
      · constructor
        · intro hz
          have hq0 : q = 0 := by linarith
          have hsz : s = 0 := by linarith
          intro x hx
          rcases List.mem_cons.mp hx with rfl | hx'
          · rw [hq0]
          · exact hiff.mp hsz x hx'
        · intro hall
          have h1 : Cell.num q = Cell.num 0 := hall _ (by simp)
          have h2 : s = 0 := hiff.mpr (fun x hx => hall x (by simp [hx]))
          injection h1 with h1
          rw [h1, h2, add_zero]
    | str s' => exact absurd hc (by simp [isNonnegNum])
    | nan => exact absurd hc (by simp [isNonnegNum])
    | pinf => exact absurd hc (by simp [isNonnegNum])
    | ninf => exact absurd hc (by simp [isNonnegNum])

/-- Claim C9: on a cleaned frame whose status cells are non-negative
numbers, the reporter produces exactly the three other chart files and no
watching-status file when every one of the five status-column totals is
zero; and produces the watching-status file as soon as any status total is
non-zero. -/
theorem watching_status_chart_skip (df : DF)
    (hnum : ∀ r ∈ df.rows, ∀ c ∈ status_cols, isNonnegNum (r c)) :
    ((∀ c ∈ status_cols, pandasSum (colCells df c) = .num 0) →
        visualize_main_files df =
          ["top_10_anime.png", "score_vs_episodes.png", "genre_distribution.png"] ∧
        (visualize_main_files df).length = 3 ∧
        "watching_status.png" ∉ visualize_main_files df) ∧
    ((∃ c ∈ status_cols, pandasSum (colCells df c) ≠ .num 0) →
        "watching_status.png" ∈ visualize_main_files df) := by
  have hcol : ∀ c ∈ status_cols, ∃ s, pandasSum (colCells df c) = .num s ∧ 0 ≤ s := by
    intro c hc
    obtain ⟨s, hs, h0, -⟩ := pandasSum_nonneg_nums (colCells df c)
      (fun x hx => by
        obtain ⟨r, hr, rfl⟩ := List.mem_map.mp hx
        exact hnum r hr c hc)
    exact ⟨s, hs, h0⟩
  obtain ⟨s1, e1, p1⟩ := hcol "Watching" (by decide)
  obtain ⟨s2, e2, p2⟩ := hcol "Completed" (by decide)
  obtain ⟨s3, e3, p3⟩ := hcol "On_Hold" (by decide)
  obtain ⟨s4, e4, p4⟩ := hcol "Dropped" (by decide)
  obtain ⟨s5, e5, p5⟩ := hcol "Plan_to_Watch" (by decide)
  have hmap : status_cols.map (fun c => pandasSum (colCells df c)) =
      [.num s1, .num s2, .num s3, .num s4, .num s5] := by
    simp [status_cols, e1, e2, e3, e4, e5]
  have hgrand : pandasSum (status_cols.map (fun c => pandasSum (colCells df c))) =
      .num (s1 + s2 + s3 + s4 + s5) := by
    rw [hmap, show pandasSum [Cell.num s1, Cell.num s2, Cell.num s3,
      Cell.num s4, Cell.num s5] =
        Cell.num (s1 + (s2 + (s3 + (s4 + (s5 + 0))))) from rfl]
    norm_num [add_assoc]
  constructor
  · intro hall
    have z1 : s1 = 0 := by have := hall "Watching" (by decide); rw [e1] at this; injection this
    have z2 : s2 = 0 := by have := hall "Completed" (by decide); rw [e2] at this; injection this
    have z3 : s3 = 0 := by have := hall "On_Hold" (by decide); rw [e3] at this; injection this
    have z4 : s4 = 0 := by have := hall "Dropped" (by decide); rw [e4] at this; injection this
    have z5 : s5 = 0 := by have := hall "Plan_to_Watch" (by decide); rw [e5] at this; injection this
    have hz : visualize_main_files df =
        ["top_10_anime.png", "score_vs_episodes.png", "genre_distribution.png"] := by
      unfold visualize_main_files plot_watching_status_files plot_top_anime_files
        plot_score_episodes_files plot_genres_distribution_files
      dsimp only
      rw [hgrand, z1, z2, z3, z4, z5]
      norm_num [cellEqZero]
    exact ⟨hz, by rw [hz]; rfl, by rw [hz]; decide⟩
  · rintro ⟨c, hc, hne⟩
    have hcases : c = "Watching" ∨ c = "Completed" ∨ c = "On_Hold" ∨
        c = "Dropped" ∨ c = "Plan_to_Watch" := by
      simpa [status_cols] using hc
    have hsumpos : s1 + s2 + s3 + s4 + s5 ≠ 0 := by
      have hpos : 0 < s1 + s2 + s3 + s4 + s5 := by
        rcases hcases with rfl | rfl | rfl | rfl | rfl
        · rw [e1] at hne
          have : s1 ≠ 0 := fun hh => hne (by rw [hh])
          have : 0 < s1 := lt_of_le_of_ne p1 (Ne.symm this)
          linarith
        · rw [e2] at hne
          have : s2 ≠ 0 := fun hh => hne (by rw [hh])
          have : 0 < s2 := lt_of_le_of_ne p2 (Ne.symm this)
          linarith
        · rw [e3] at hne
          have : s3 ≠ 0 := fun hh => hne (by rw [hh])
          have : 0 < s3 := lt_of_le_of_ne p3 (Ne.symm this)
          linarith
        · rw [e4] at hne
          have : s4 ≠ 0 := fun hh => hne (by rw [hh])
          have : 0 < s4 := lt_of_le_of_ne p4 (Ne.symm this)
          linarith
        · rw [e5] at hne
          have : s5 ≠ 0 := fun hh => hne (by rw [hh])
          have : 0 < s5 := lt_of_le_of_ne p5 (Ne.symm this)
          linarith
      exact ne_of_gt hpos
    have hfiles : plot_watching_status_files df = ["watching_status.png"] := by
      unfold plot_watching_status_files
      dsimp only
      rw [hgrand]
      simp [cellEqZero, hsumpos]
    unfold visualize_main_files
    rw [hfiles]
    simp [plot_top_anime_files, plot_score_episodes_files,
      plot_genres_distribution_files]

/-- Witness for C9: a one-row frame with all status cells zero yields
exactly the three other chart files; a one-row frame with non-zero status
cells yields the watching-status chart file. -/
theorem watching_status_chart_skip_witness :
    visualize_main_files dfStatusZero =
      ["top_10_anime.png", "score_vs_episodes.png", "genre_distribution.png"] ∧
    "watching_status.png" ∈ visualize_main_files dfStatusOne := by
  constructor
  · exact ((watching_status_chart_skip dfStatusZero (by decide)).1 (by decide)).1
  · exact (watching_status_chart_skip dfStatusOne (by decide)).2
      ⟨"Watching", by decide, by decide⟩

end Anime
